import Mathlib

/-!
Shallow embedding of the Bitcoin-family core of the kismet-dao wallet plugin:
the PSBT-style transaction builder (`CreatePsbt`), the multi-endpoint
broadcaster (`broadcastTransaction`), the UTXO accessor
(`initialize` / `fetchBalance` / `verifySpendableUtxos` / `calculateBalance`
of `BTCNetworkBase`), and the fee estimator (`GasFees.fetchGasFees`, BTC
branch).  Network I/O is modelled by explicit oracle functions from request
URLs to response values; machine numbers are `Int`/`Nat`/`Rat`.
-/

namespace WalletPlugin

/-! ### Constants (src/constants/bitcoin.ts) and bitcoin types (src/types/bitcoin.ts) -/

/-- Type `NetworkConfig` from src/types/bitcoin.ts. -/
structure NetworkConfigBtc where
  bech32 : String
  pubKeyHash : Nat
  scriptHash : Nat
  wif : Nat
  minimumFee : Int
  dustThreshold : Int
  defaultSequence : Nat
deriving DecidableEq

/-- Constant `BTC_TO_SATOSHI` from src/constants/bitcoin.ts. -/
def BTC_TO_SATOSHI : ℚ := 100000000

/-- Constant `bitcoinMainnet` from src/constants/bitcoin.ts. -/
def bitcoinMainnet : NetworkConfigBtc :=
  { bech32 := "bc", pubKeyHash := 0x00, scriptHash := 0x05, wif := 0x80,
    minimumFee := 1000, dustThreshold := 546, defaultSequence := 0xffffffff }

/-- Constant `bitcoinTestnet` from src/constants/bitcoin.ts. -/
def bitcoinTestnet : NetworkConfigBtc :=
  { bech32 := "tb", pubKeyHash := 0x6f, scriptHash := 0xc4, wif := 0xef,
    minimumFee := 1000, dustThreshold := 546, defaultSequence := 0xffffffff }

/-- The `'btc' | 'btctestnet'` network tag used by the transaction pipeline. -/
inductive BtcNet where
  | btc
  | btctestnet
deriving DecidableEq

/-- Selection `network === 'btc' ? bitcoinMainnet : bitcoinTestnet` (CreatePsbt.ts line 87). -/
def networkConfig : BtcNet → NetworkConfigBtc
  | .btc => bitcoinMainnet
  | .btctestnet => bitcoinTestnet

/-- The other network's config, as chosen by `wifToPrivateKey`
(CreatePsbt.ts line 49). -/
def alternateNetworkConfig : BtcNet → NetworkConfigBtc
  | .btc => bitcoinTestnet
  | .btctestnet => bitcoinMainnet

/-! ### WIF key decoding (src/transactions/BTC/CreatePsbt.ts, `wifToPrivateKey`)

`btc.WIF(config).decode` comes from the external `micro-btc-signer` library;
it is modelled here at its observable boundary: a WIF string decodes through
base58check (which can fail independently of any network, e.g. a bad
checksum) and then its leading version byte is compared against
`config.wif`, failing with a "Wrong WIF prefix" error on mismatch. -/

/-- Abstract view of a WIF-encoded private key: the version byte it carries,
whether its base58/checksum structure is valid at all (independent of any
network), and the key payload it decodes to. -/
structure WifKey where
  versionByte : Nat
  wellFormed : Bool
  payload : Nat
deriving DecidableEq

/-- The two observable failure modes of `btc.WIF(config).decode`. -/
inductive WifError where
  | wrongPrefix
  | malformed
deriving DecidableEq

/-- Model of `btc.WIF(networkConfig).decode(wif)`: malformed encodings fail
regardless of network; a well-formed key fails with `wrongPrefix` exactly when
its version byte differs from the config's `wif` byte. -/
def wifDecode (cfg : NetworkConfigBtc) (k : WifKey) : Except WifError Nat :=
  if ¬ k.wellFormed then .error .malformed
  else if k.versionByte ≠ cfg.wif then .error .wrongPrefix
  else .ok k.payload

/-- Error values raised by `CreatePsbt` (modelled; the source throws
`Error` objects with distinguishing messages). -/
inductive PsbtError where
  /-- "No valid UTXOs available for the transaction" (line 75). -/
  | invalidUtxos
  /-- "Insufficient funds. Required: ... Available: ..." (lines 138-141). -/
  | insufficientFunds (required available : Int)
  /-- "Failed to decode WIF for both networks" (line 53). -/
  | keyDecodeFailedBoth
  /-- "Failed to decode WIF" (line 56): a non-prefix decode failure,
  thrown without trying the alternate network. -/
  | keyDecodeFailed
deriving DecidableEq

/-- Function `wifToPrivateKey` (CreatePsbt.ts lines 41-60): decode against the
requested network; on a "Wrong WIF prefix" failure retry against the
alternate network's config; on any other failure throw immediately. -/
def wifToPrivateKey (wif : WifKey) (network : BtcNet) : Except PsbtError Nat :=
  match wifDecode (networkConfig network) wif with
  | .ok d => .ok d
  | .error e =>
    if e = .wrongPrefix then
      match wifDecode (alternateNetworkConfig network) wif with
      | .ok d => .ok d
      | .error _ => .error .keyDecodeFailedBoth
    else
      .error .keyDecodeFailed

/-! ### The transaction builder (src/transactions/BTC/CreatePsbt.ts) -/

/-- Type `UTXO` from src/types/bitcoin.ts as consumed by the builder
(the optional `status` field is not read by `CreatePsbt`). -/
structure UTXO where
  txid : String
  vout : Nat
  value : Int
deriving DecidableEq

/-- Type `TransactionDetails` from src/types/bitcoin.ts (a missing `utxos` field
is modelled as the empty list; both raise the same validation error). -/
structure TransactionDetails where
  network : BtcNet
  address : String
  recipient : String
  amount : ℚ
  utxos : List UTXO
deriving DecidableEq

/-- Type `GasFees` from src/types/bitcoin.ts.  Rates are integral: the source
feeds the selected rate through `BigInt(Math.max(feeRate, 1))`, which is only
defined for integral numbers. -/
structure GasFees where
  low : Int
  medium : Int
  high : Int
deriving DecidableEq

/-- Type `keyof GasFees`. -/
inductive FeeTier where
  | low
  | medium
  | high
deriving DecidableEq

/-- Lookup `fees[selectedGasFee]`. -/
def GasFees.get (f : GasFees) : FeeTier → Int
  | .low => f.low
  | .medium => f.medium
  | .high => f.high

/-- Constant `defaultGasFees = { low: 1, medium: 2, high: 5 }`
(CreatePsbt.ts line 110). -/
def defaultGasFees : GasFees := ⟨1, 2, 5⟩

/-- Constant `estimatedTransactionSize = 227` (CreatePsbt.ts line 113). -/
def estimatedTransactionSize : Int := 227

/-- Fee estimation of `CreatePsbt` (lines 113-119):
`max(feeRate, 1) * 227`, raised to `networkConfig.minimumFee` when below. -/
def estimateFee (cfg : NetworkConfigBtc) (feeRate : Int) : Int :=
  let e := max feeRate 1 * estimatedTransactionSize
  if e < cfg.minimumFee then cfg.minimumFee else e

/-- An output added via `tx.addOutputAddress(addr, amount, networkConfig)`. -/
structure TxOutput where
  address : String
  amount : Int
deriving DecidableEq

/-- The observable result of a successful `CreatePsbt` call: the outputs
added to the transaction in order, the number of inputs signed, and the
returned `{ feeRate, totalFee }`. -/
structure BuiltTx where
  outputs : List TxOutput
  signedInputs : Nat
  feeRate : Int
  totalFee : Int
deriving DecidableEq

/-- Sum `totalInputAmount = Σ utxo.value` (CreatePsbt.ts lines 92-98). -/
def totalInputAmount (td : TransactionDetails) : Int :=
  (td.utxos.map (fun u => u.value)).sum

/-- JS `Math.round`: round half up, `⌊q + 1/2⌋`, written with the
computable `Rat.floor`; `jsRound_eq_round` below identifies it with
Mathlib's `round`. -/
def jsRound (q : ℚ) : ℤ := (q + 1/2).floor


/-- Conversion `amountInSatoshis = BigInt(Math.round(amount * BTC_TO_SATOSHI))`
(CreatePsbt.ts line 127). -/
def amountInSatoshis (td : TransactionDetails) : Int :=
  jsRound (td.amount * BTC_TO_SATOSHI)

/-- Rate `feeRate = fees[selectedGasFee]` where `fees = gasFees ||
defaultGasFees` (CreatePsbt.ts lines 110-114). -/
def builderFeeRate (selectedGasFee : FeeTier) (gasFees : Option GasFees) : Int :=
  (gasFees.getD defaultGasFees).get selectedGasFee

/-- Fee `estimatedFee` of the builder (CreatePsbt.ts lines 115-119). -/
def builderFee (td : TransactionDetails) (selectedGasFee : FeeTier)
    (gasFees : Option GasFees) : Int :=
  estimateFee (networkConfig td.network) (builderFeeRate selectedGasFee gasFees)

/-- Total `totalAmountToSend = amountInSatoshis + estimatedFee`
(CreatePsbt.ts line 128). -/
def totalAmountToSend (td : TransactionDetails) (selectedGasFee : FeeTier)
    (gasFees : Option GasFees) : Int :=
  amountInSatoshis td + builderFee td selectedGasFee gasFees

/-- Remainder `changeAmount = totalInputAmount - totalAmountToSend`
(CreatePsbt.ts line 145). -/
def changeAmount (td : TransactionDetails) (selectedGasFee : FeeTier)
    (gasFees : Option GasFees) : Int :=
  totalInputAmount td - totalAmountToSend td selectedGasFee gasFees

/-- The outputs added by `CreatePsbt` (lines 144-152): the recipient output
for `amountInSatoshis`, then a change output to the sender's own address
exactly when `changeAmount > dustThreshold`. -/
def psbtOutputs (td : TransactionDetails) (selectedGasFee : FeeTier)
    (gasFees : Option GasFees) : List TxOutput :=
  ⟨td.recipient, amountInSatoshis td⟩ ::
    (if (networkConfig td.network).dustThreshold < changeAmount td selectedGasFee gasFees
     then [⟨td.address, changeAmount td selectedGasFee gasFees⟩]
     else [])

/-- Builder `CreatePsbt` (CreatePsbt.ts lines 62-169), with network I/O and
signature bytes abstracted away.  Faithful to the source's order of
operations: UTXO-set validation (line 73), the insufficient-funds check
(line 137), output construction (lines 144-152: recipient first, then the
change output if above the dust threshold), then key decoding and input
signing (lines 154-157). -/
def CreatePsbt (td : TransactionDetails) (privateKey : WifKey)
    (selectedGasFee : FeeTier) (gasFees : Option GasFees) :
    Except PsbtError BuiltTx :=
  if td.utxos = [] ∨ td.utxos.any (fun u => u.value ≤ 0) then
    .error .invalidUtxos
  else if totalInputAmount td < totalAmountToSend td selectedGasFee gasFees then
    .error (.insufficientFunds (totalAmountToSend td selectedGasFee gasFees)
      (totalInputAmount td))
  else
    match wifToPrivateKey privateKey td.network with
    | .error e => .error e
    | .ok _ =>
      .ok ⟨psbtOutputs td selectedGasFee gasFees, td.utxos.length,
        builderFeeRate selectedGasFee gasFees, builderFee td selectedGasFee gasFees⟩

/-- Whether a builder result is the insufficient-funds error. -/
def isInsufficientFundsError : Except PsbtError BuiltTx → Bool
  | .error (.insufficientFunds _ _) => true
  | _ => false

/-! ### The broadcaster (src/transactions/BTC/BroadcastTransaction.ts) -/

/-- The two content types tried per endpoint, in order (line 17). -/
inductive ContentType where
  | textPlain
  | applicationJson
deriving DecidableEq

/-- A 2xx response body: either plain text (the txid itself) or a JSON
object that may carry a `txid` field; `other s` stands for any other JSON
value whose `JSON.stringify` is `s`. -/
inductive RespBody where
  | str (s : String)
  | obj (txid : Option String) (stringified : String)
deriving DecidableEq

/-- Extraction `typeof data === 'string' ? data : data.txid || JSON.stringify(data)`
(lines 33-35).  An empty-string `txid` field is falsy in JS and falls
through to `JSON.stringify`. -/
def RespBody.toTxId : RespBody → String
  | .str s => s
  | .obj (some t) stringified => if t = "" then stringified else t
  | .obj none stringified => stringified

/-- The outcome of one `axios.post` attempt: `resolved` when the promise
resolved (axios resolves only 2xx statuses by default), `rejected` when it
threw — carrying `response?.status`, the `response?.data` body
(`JSON.stringify`-ed, `none` when there was no response) and the error
message. -/
inductive BroadcastAttempt where
  | resolved (status : Nat) (data : RespBody)
  | rejected (status : Option Nat) (data : Option String) (message : String)
deriving DecidableEq

/-- Errors thrown by `broadcastTransaction`. -/
inductive BroadcastError where
  /-- "Invalid transaction: ..." on an HTTP 400 response (line 54). -/
  | invalidTransaction (errorMsg : String)
  /-- "Failed to broadcast transaction: ..." after all attempts (line 61). -/
  | exhausted (lastInfo : String)
deriving DecidableEq

/-- JS `a ? a : b` on an optional string (empty strings are falsy). -/
def jsStrOr (a : Option String) (b : String) : String :=
  match a with
  | some s => if s = "" then b else s
  | none => b

/-- The endpoint lists of `broadcastTransaction` (lines 8-15). -/
def broadcastEndpoints : BtcNet → List String
  | .btc => ["https://mempool.space/api/tx", "https://blockstream.info/api/tx"]
  | .btctestnet => ["https://mempool.space/testnet4/api/tx"]

/-- Constant `contentTypes = ['text/plain', 'application/json']` (line 17). -/
def contentTypes : List ContentType := [.textPlain, .applicationJson]

/-- The nested endpoint × content-type loop of `broadcastTransaction`
(lines 21-59), over the flattened attempt list, threading `lastError`
(its message) and `lastResponseData`.  A resolved non-200 response falls
through the `if` without touching either accumulator; a rejected attempt
records message and body, throws immediately when `status === 400`, and
otherwise continues. -/
def broadcastGo (env : String → ContentType → BroadcastAttempt) :
    List (String × ContentType) → Option String → Option String →
    Except BroadcastError String
  | [], lastError, lastResponseData =>
    .error (.exhausted (jsStrOr lastResponseData (jsStrOr lastError "Unknown error")))
  | (baseUrl, ct) :: rest, lastError, lastResponseData =>
    match env baseUrl ct with
    | .resolved status data =>
      if status = 200 then .ok data.toTxId
      else broadcastGo env rest lastError lastResponseData
    | .rejected status data message =>
      if status = some 400 then
        .error (.invalidTransaction (data.getD "undefined"))
      else
        broadcastGo env rest (some message) data

/-- The attempt order: for each endpoint, plain text then JSON. -/
def broadcastAttemptList (network : BtcNet) : List (String × ContentType) :=
  (broadcastEndpoints network).flatMap (fun u => contentTypes.map (fun ct => (u, ct)))

/-- Function `broadcastTransaction` (BroadcastTransaction.ts lines 4-68).  The
posted body is `txHex` raw or `{ txHex }` depending on content type; the
oracle `env` receives the endpoint URL and the content type and returns
that attempt's outcome. -/
def broadcastTransaction (_txHex : String) (network : BtcNet)
    (env : String → ContentType → BroadcastAttempt) : Except BroadcastError String :=
  broadcastGo env (broadcastAttemptList network) none none

/-! ### The UTXO accessor (src/networks/BTCNetworkBase.ts) -/

/-- Whether `patt` is a leading prefix of `s` (on character lists). -/
def listStartsWith : List Char → List Char → Bool
  | [], _ => true
  | _ :: _, [] => false
  | p :: ps, c :: cs => p = c && listStartsWith ps cs

/-- Replace the first occurrence of `patt` in `s` by `repl` (on character
lists). -/
def replaceFirstChars (patt repl : List Char) : List Char → List Char
  | [] => []
  | c :: cs =>
    if listStartsWith patt (c :: cs) then repl ++ (c :: cs).drop patt.length
    else c :: replaceFirstChars patt repl cs

/-- JS `String.prototype.replace` with a string pattern:
`url.replace('{address}', address)` replaces only the first occurrence of
the pattern (the endpoint templates contain exactly one). -/
def jsReplaceFirst (s patt repl : String) : String :=
  ⟨replaceFirstChars patt.data repl.data s.data⟩

/-- The `status` object of a UTXO as returned by explorer endpoints
(src/types/network.ts). -/
structure UtxoStatus where
  confirmed : Bool
deriving DecidableEq

/-- Type `UTXO` from src/types/network.ts, the shape handled by
`BTCNetworkBase` (`status` is optional in the API response). -/
structure NetUTXO where
  txid : String
  vout : Nat
  value : Int
  status : Option UtxoStatus
deriving DecidableEq

/-- The confirmed-UTXO filter of `fetchBalance` (lines 85-90):
`utxo.status?.confirmed && utxo.value && typeof utxo.vout === 'number' &&
utxo.txid`.  JS truthiness: a zero `value` or an empty `txid` is dropped;
the `typeof` guard is inherent in the model's `vout : Nat`. -/
def confirmedUtxoFilter (u : NetUTXO) : Bool :=
  (match u.status with
   | some s => s.confirmed
   | none => false) && u.value != 0 && u.txid != ""

/-- One entry of a `/tx/{txid}/outspends` response. -/
structure Outspend where
  spent : Bool
deriving DecidableEq

/-- The outcome of the outspend-verification `axios.get` (lines 134):
`failure` when the request threw, `ok status data` when it resolved, with
`data = none` when the body is not an array. -/
inductive OutspendsResult where
  | failure (msg : String)
  | ok (status : Nat) (data : Option (List Outspend))
deriving DecidableEq

/-- The verification URL built at lines 130-132. -/
def outspendsUrl (isTestnet : Bool) (txid : String) : String :=
  (if isTestnet then "https://blockstream.info/testnet/api/tx/"
   else "https://blockstream.info/api/tx/") ++ txid ++ "/outspends"

/-- Whether one UTXO passes the spendability check of
`verifySpendableUtxos` (lines 136-145): the lookup resolved with status
200 and an array body, the entry at index `vout` exists, and its `spent`
flag is false. -/
def utxoVerifiedSpendable (isTestnet : Bool) (http : String → OutspendsResult)
    (u : NetUTXO) : Bool :=
  match http (outspendsUrl isTestnet u.txid) with
  | .ok 200 (some arr) =>
    match arr.get? u.vout with
    | some outputStatus => !outputStatus.spent
    | none => false
  | _ => false

/-- Function `verifySpendableUtxos` (BTCNetworkBase.ts lines 123-155): the loop
pushing each UTXO whose outspend lookup confirms it unspent; lookup
failures and missing entries are dropped. -/
def verifySpendableUtxos (isTestnet : Bool) (http : String → OutspendsResult) :
    List NetUTXO → List NetUTXO
  | [] => []
  | u :: rest =>
    if utxoVerifiedSpendable isTestnet http u then
      u :: verifySpendableUtxos isTestnet http rest
    else
      verifySpendableUtxos isTestnet http rest

/-- Function `calculateBalance` (BTCNetworkBase.ts lines 157-163):
`data.reduce((acc, utxo) => acc + utxo.value, 0)` — the plain sum of the
`value` fields, in satoshis; no unit conversion happens here. -/
def calculateBalance (data : List NetUTXO) : Int :=
  (data.map (fun u => u.value)).sum

/-- The mutable state of a `BTCNetworkBase` instance: the cached UTXO set
and the `initialized` flag. -/
structure BTCNetworkState where
  utxos : List NetUTXO
  initialized : Bool
deriving DecidableEq

/-- The outcome of one explorer `axios.get` in `fetchBalance` (line 79):
`failure` when the request threw, otherwise the status and the body
(`none` when the body is not an array). -/
inductive UtxoFetchResult where
  | failure (msg : String)
  | ok (status : Nat) (data : Option (List NetUTXO))
deriving DecidableEq

/-- Errors thrown by `fetchBalance`. -/
inductive BalanceError where
  /-- "network not initialized. Call initialize() first." (line 70). -/
  | notInitialized
  /-- "No spendable UTXOs found for address ..." (lines 117-120). -/
  | noSpendableUtxos (address : String)
deriving DecidableEq

/-- The body of one iteration of the `fetchBalance` endpoint loop
(lines 76-115): `none` when the attempt contributes nothing — the request
threw, the response was non-200 or not an array, no UTXO survived the
confirmed filter (line 92), or none re-verified as spendable (line 104) —
and `some spendableUtxos` for the first-stage-filtered, re-verified,
non-empty set the loop would cache and return. -/
def tryEndpoint (isTestnet : Bool) (httpGet : String → UtxoFetchResult)
    (outspends : String → OutspendsResult) (address url : String) :
    Option (List NetUTXO) :=
  match httpGet (jsReplaceFirst url "{address}" address) with
  | .failure _ => none
  | .ok status data =>
    match data with
    | none => none
    | some arr =>
      if status = 200 then
        if arr.filter confirmedUtxoFilter = [] then
          none
        else if verifySpendableUtxos isTestnet outspends (arr.filter confirmedUtxoFilter) = [] then
          none
        else
          some (verifySpendableUtxos isTestnet outspends (arr.filter confirmedUtxoFilter))
      else
        none

/-- The endpoint loop of `fetchBalance` (lines 76-115): each endpoint is
tried in order; an attempt that yields nothing continues to the next
endpoint without touching the state; the first non-empty verified set is
cached via `setUtxos` (wholesale assignment, line 170) and its
`calculateBalance` returned. -/
def fetchBalanceGo (isTestnet : Bool) (httpGet : String → UtxoFetchResult)
    (outspends : String → OutspendsResult) (address : String) :
    List String → BTCNetworkState → Except BalanceError Int × BTCNetworkState
  | [], s => (.error (.noSpendableUtxos address), s)
  | url :: rest, s =>
    match tryEndpoint isTestnet httpGet outspends address url with
    | none => fetchBalanceGo isTestnet httpGet outspends address rest s
    | some spendableUtxos =>
      (.ok (calculateBalance spendableUtxos), { s with utxos := spendableUtxos })

/-- Function `fetchBalance` (BTCNetworkBase.ts lines 68-121).  `getEndpoints()` and
`getNetworkName()` are abstract in the source (implemented per subclass),
so the endpoint list and the testnet flag (`getNetworkName() ===
'BTCTestnet'`, line 125) are parameters here. -/
def fetchBalance (isTestnet : Bool) (endpoints : List String)
    (httpGet : String → UtxoFetchResult) (outspends : String → OutspendsResult)
    (address : String) (s : BTCNetworkState) :
    Except BalanceError Int × BTCNetworkState :=
  if s.initialized then
    fetchBalanceGo isTestnet httpGet outspends address endpoints s
  else
    (.error .notInitialized, s)

/-! ### `initialize` (src/networks/BTCNetworkBase.ts lines 18-52) -/

/-- The outcome of one probe `axios.get` in `initialize`. -/
inductive ProbeResult where
  | ok (status : Nat)
  | failure (msg : String)
deriving DecidableEq

/-- The genesis-block address used as the known-good probe (line 21). -/
def genesisAddress : String := "1A1zP1eP5QGefi2DMPTfTL5SLmv7DivfNa"

/-- The probe loop of `initialize` (lines 25-42): true as soon as one
endpoint responds 200; a thrown request or a resolved non-200 response
continues to the next endpoint. -/
def initializeProbe (probe : String → ProbeResult) : List String → Bool
  | [] => false
  | url :: rest =>
    match probe (jsReplaceFirst url "{address}" genesisAddress) with
    | .ok 200 => true
    | _ => initializeProbe probe rest

/-- Function `initialize` (BTCNetworkBase.ts lines 18-52).  Note that it probes the
endpoints unconditionally — it does not consult the current `initialized`
flag — and on total probe failure the outer catch leaves
`initialized = false` and throws. -/
def initializeNetwork (probe : String → ProbeResult) (endpoints : List String)
    (s : BTCNetworkState) : Except String Unit × BTCNetworkState :=
  if initializeProbe probe endpoints then
    (.ok (), { s with initialized := true })
  else
    (.error "All endpoints failed initialization check", { s with initialized := false })

/-! ### The fee estimator (src/utils/gasFees.ts), Bitcoin-family branch -/

/-- Type `NetworkType` from src/types/network.ts. -/
inductive NetworkType where
  | eth
  | btc
  | btctestnet
  | sol
  | base
  | dag
  | xrp
  | xrpmainnet
  | xrptestnet
deriving DecidableEq

/-- Type `FeeRates` from src/types/network.ts; rates can be fractional
(`base`, `xrp`), so the model uses `ℚ`. -/
structure FeeRates where
  low : ℚ
  medium : ℚ
  high : ℚ
deriving DecidableEq

/-- The `defaultFees` table built by the `GasFees` constructor
(gasFees.ts lines 12-25). -/
def defaultFees : NetworkType → FeeRates
  | .btc => ⟨8, 12, 20⟩
  | .btctestnet => ⟨1, 2, 5⟩
  | .eth => ⟨30, 40, 50⟩
  | .base => ⟨0.001, 0.002, 0.003⟩
  | .sol => ⟨0, 0, 0⟩
  | .dag => ⟨0.01, 0.02, 0.03⟩
  | .xrp => ⟨0.000010, 0.000012, 0.000015⟩
  | .xrpmainnet => ⟨0.000010, 0.000012, 0.000015⟩
  | .xrptestnet => ⟨0.000010, 0.000012, 0.000015⟩

/-- The `{minimumFee, halfHourFee, fastestFee}` body of the
fee-recommendation endpoint (gasFees.ts lines 109-113). -/
structure RecommendedFees where
  minimumFee : ℚ
  halfHourFee : ℚ
  fastestFee : ℚ
deriving DecidableEq

/-- The outcome of one fee-endpoint `axios.get` (gasFees.ts line 109):
`failure` for a timeout / non-2xx / network error (axios throws),
`ok none` for a resolved response whose `data` is falsy,
`ok (some d)` for usable data. -/
inductive BtcFeeResult where
  | failure (msg : String)
  | ok (data : Option RecommendedFees)
deriving DecidableEq

/-- Whether one fee-endpoint attempt failed to produce usable data. -/
def btcFeeAttemptFailed : BtcFeeResult → Bool
  | .failure _ => true
  | .ok none => true
  | .ok (some _) => false

/-- The endpoint list of `fetchBTCFees` (gasFees.ts lines 103-105). -/
def btcFeeEndpoints (network : NetworkType) : List String :=
  if network = .btc then ["https://mempool.space/api/v1/fees/recommended"]
  else ["https://mempool.space/testnet4/api/v1/fees/recommended"]

/-- JS `x || d` on numbers: `0` (and `NaN`) are falsy. -/
def jsNumOr (x d : ℚ) : ℚ := if x = 0 then d else x

/-- The endpoint loop of `fetchBTCFees` (gasFees.ts lines 107-130):
falls back to the per-network defaults when every endpoint fails,
and fills each tier from the response with the default as `||` fallback. -/
def fetchBTCFeesGo (network : NetworkType) (http : String → BtcFeeResult) :
    List String → FeeRates
  | [] => defaultFees network
  | api :: rest =>
    match http api with
    | .failure _ => fetchBTCFeesGo network http rest
    | .ok none => fetchBTCFeesGo network http rest
    | .ok (some data) =>
      ⟨jsNumOr data.minimumFee (defaultFees network).low,
       jsNumOr data.halfHourFee (defaultFees network).medium,
       jsNumOr data.fastestFee (defaultFees network).high⟩

/-- Function `fetchBTCFees` (gasFees.ts lines 102-131). -/
def fetchBTCFees (network : NetworkType) (http : String → BtcFeeResult) : FeeRates :=
  fetchBTCFeesGo network http (btcFeeEndpoints network)

/-- The `'btc' | 'btctestnet'` branch of `GasFees.fetchGasFees`
(gasFees.ts lines 30-33): `fees || this.defaultFees[this.network]`, where
`fees` is the (always non-null, hence truthy) object from `fetchBTCFees`;
the surrounding try/catch would also return the defaults if this branch
threw, which the model's totality already reflects. -/
def fetchGasFeesBtcBranch (network : NetworkType) (http : String → BtcFeeResult) :
    FeeRates :=
  fetchBTCFees network http

/-! ### Spec-modelled major-unit balance (for the refinement comparison)

The spec states that `fetchBalance` returns the balance "in the chain's
major unit (BTC, not satoshis)": the verified UTXO values summed and
converted from satoshis to major units.  The source's `calculateBalance`
is the plain satoshi sum; this definition follows the spec's words instead,
for comparison. -/

/-- Modelled from the spec: "return `sum(value)` converted to major units"
— the satoshi sum divided by 10^8, the claimed (but not implemented)
major-unit conversion of `fetchBalance`/`calculateBalance`. -/
def calculateBalanceMajorUnitsSpec (data : List NetUTXO) : ℚ :=
  ((data.map (fun u => u.value)).sum : ℚ) / 100000000


/-! ### Concrete fixtures used by witnesses and counterexamples -/

/-- Broadcast environment for the C5 counterexample: the first attempt
(mempool.space, text/plain) is answered with HTTP 404 — a 400-class
response — and every later attempt succeeds with txid "abc". -/
def broadcastEnv404 : String → ContentType → BroadcastAttempt := fun url ct =>
  if url = "https://mempool.space/api/tx" ∧ ct = .textPlain then
    .rejected (some 404) (some "Not found") "Request failed with status code 404"
  else
    .resolved 200 (.str "abc")

/-- E2E scenario A of the spec: two confirmed UTXOs of 50,000 and 30,000
sats, sending 0.0007 BTC (70,000 sats). -/
def tdA : TransactionDetails :=
  ⟨.btc, "bc1qsender", "bc1qrecipient", 7/10000, [⟨"aa", 0, 50000⟩, ⟨"bb", 1, 30000⟩]⟩

/-- A well-formed mainnet-prefixed signing key. -/
def keyA : WifKey := ⟨0x80, true, 7⟩

/-- E2E scenario B of the spec: the same UTXOs, sending 0.000795 BTC
(79,500 sats). -/
def tdB : TransactionDetails :=
  ⟨.btc, "bc1qsender", "bc1qrecipient", 795/1000000, [⟨"aa", 0, 50000⟩, ⟨"bb", 1, 30000⟩]⟩

/-- A transaction request with an empty UTXO set. -/
def tdEmpty : TransactionDetails := ⟨.btc, "bc1qsender", "bc1qrecipient", 7/10000, []⟩

/-- Confirmed, spendable UTXO fixture: two UTXOs of 50,000 and 30,000
sats. -/
def utxoSetW : List NetUTXO :=
  [⟨"aa", 0, 50000, some ⟨true⟩⟩, ⟨"bb", 1, 30000, some ⟨true⟩⟩]

/-- Outspends oracle reporting every output unspent. -/
def outspendsAllUnspent : String → OutspendsResult :=
  fun _ => .ok 200 (some [⟨false⟩, ⟨false⟩])

/-- Explorer oracle whose first endpoint 500s and whose second returns the
fixture set. -/
def httpGetFlaky : String → UtxoFetchResult := fun u =>
  if u = "https://bad.example/alice" then .failure "Request failed with status code 500"
  else .ok 200 (some utxoSetW)

/-! ## Theorems -/

/-- Lemma: `jsRound` is the Mathlib `round` on `ℚ`. -/
theorem jsRound_eq_round (q : ℚ) : jsRound q = round q := by
  rw [round_eq, jsRound, Rat.floor_def', Rat.floor_def]

/-- Claim C3: for every fee-tier rate `r ≥ 0` and both Bitcoin networks, the
builder's estimated fee equals `max(max(r,1) * 227, networkMinimumFee)`,
where 227 is the fixed size estimate in vBytes and the network minimum fee
is 1000 satoshis on mainnet and testnet alike; in particular rate 2 gives
`max(454, 1000) = 1000` satoshis. -/
theorem estimateFee_fee_floor (net : BtcNet) (r : Int) (_hr : 0 ≤ r) :
    estimateFee (networkConfig net) r = max (max r 1 * 227) 1000 ∧
    (networkConfig net).minimumFee = 1000 ∧
    estimateFee (networkConfig net) 2 = 1000 := by
  cases net <;>
    refine ⟨?_, rfl, rfl⟩ <;>
    simp only [estimateFee, networkConfig, bitcoinMainnet, bitcoinTestnet,
      estimatedTransactionSize] <;>
    split <;> omega

/-- Witness for C3 at rate 2 on mainnet: the fee is `max(454, 1000) = 1000`. -/
theorem estimateFee_fee_floor_witness :
    estimateFee (networkConfig .btc) 2 = max (max 2 1 * 227) 1000 ∧
    max (max (2 : Int) 1 * 227) 1000 = 1000 :=
  ⟨(estimateFee_fee_floor .btc 2 (by decide)).1, by norm_num⟩

/-- Helper: a malformed WIF key fails to decode against every network
config (the base58/checksum failure precedes the version-byte check). -/
theorem wifDecode_malformed_all (cfg cfg' : NetworkConfigBtc) (k : WifKey)
    (h : wifDecode cfg k = .error .malformed) :
    wifDecode cfg' k = .error .malformed := by
  unfold wifDecode at h ⊢
  by_cases hw : k.wellFormed
  · simp only [hw, not_true_eq_false, if_false] at h
    split at h <;> simp_all
  · simp [hw]

/-- Claim C8: a WIF key whose decode against the requested network fails on
the version byte (a "Wrong WIF prefix" error) is retried against the
alternate network's config before failing; and every terminal key-decode
error from `wifToPrivateKey` implies the key fails to decode against both
network version bytes (a malformed key fails base58check against either
config, and a wrong-prefix key that decodes against the alternate config
succeeds rather than erroring). -/
theorem wifToPrivateKey_alternate_retry (k : WifKey) (net : BtcNet) :
    (wifDecode (networkConfig net) k = .error .wrongPrefix →
      wifToPrivateKey k net =
        match wifDecode (alternateNetworkConfig net) k with
        | .ok d => .ok d
        | .error _ => .error .keyDecodeFailedBoth) ∧
    (∀ e, wifToPrivateKey k net = .error e →
      (∃ e₁, wifDecode (networkConfig net) k = .error e₁) ∧
      (∃ e₂, wifDecode (alternateNetworkConfig net) k = .error e₂)) := by
  constructor
  · intro h
    unfold wifToPrivateKey
    rw [h]
    rfl
  · intro e he
    unfold wifToPrivateKey at he
    cases h1 : wifDecode (networkConfig net) k with
    | ok d =>
      rw [h1] at he
      simp at he
    | error e₁ =>
      rw [h1] at he
      cases e₁ with
      | wrongPrefix =>
        refine ⟨⟨.wrongPrefix, rfl⟩, ?_⟩
        cases h2 : wifDecode (alternateNetworkConfig net) k with
        | ok d =>
          rw [h2] at he
          simp at he
        | error e₂ => exact ⟨e₂, rfl⟩
      | malformed =>
        exact ⟨⟨.malformed, rfl⟩,
          ⟨.malformed, wifDecode_malformed_all (networkConfig net)
            (alternateNetworkConfig net) k h1⟩⟩

/-- Witness for C8: a well-formed testnet-prefixed key (version byte
`0xef`) requested as mainnet hits the wrong-prefix path and succeeds via
the alternate (testnet) config. -/
theorem wifToPrivateKey_alternate_retry_witness :
    wifToPrivateKey ⟨0xef, true, 42⟩ .btc = .ok 42 := by
  have h := (wifToPrivateKey_alternate_retry ⟨0xef, true, 42⟩ .btc).1 (by rfl)
  exact h

/-- Claim C10: spendability verification is fail-closed —
`verifySpendableUtxos` returns exactly the sublist of its input whose
outspend lookup resolved with status 200 and an array body having an entry
at index `vout` with `spent = false`; a UTXO whose lookup errors, or whose
entry at `vout` is missing, is dropped. -/
theorem verifySpendableUtxos_fail_closed (isTestnet : Bool)
    (http : String → OutspendsResult) (l : List NetUTXO) :
    verifySpendableUtxos isTestnet http l =
      l.filter (utxoVerifiedSpendable isTestnet http) ∧
    (verifySpendableUtxos isTestnet http l).Sublist l ∧
    (∀ u, u ∈ verifySpendableUtxos isTestnet http l ↔
      u ∈ l ∧ utxoVerifiedSpendable isTestnet http u = true) := by
  have hf : verifySpendableUtxos isTestnet http l =
      l.filter (utxoVerifiedSpendable isTestnet http) := by
    induction l with
    | nil => rfl
    | cons u rest ih =>
      by_cases h : utxoVerifiedSpendable isTestnet http u <;>
        simp [verifySpendableUtxos, List.filter_cons, h, ih]
  refine ⟨hf, ?_, ?_⟩
  · rw [hf]; exact List.filter_sublist l
  · intro u; rw [hf]; simp [List.mem_filter]

/-- Witness for C10: on the fixture set every lookup verifies unspent, and
the result is exactly the filtered input. -/
theorem verifySpendableUtxos_fail_closed_witness :
    verifySpendableUtxos false outspendsAllUnspent utxoSetW =
      utxoSetW.filter (utxoVerifiedSpendable false outspendsAllUnspent) :=
  (verifySpendableUtxos_fail_closed false outspendsAllUnspent utxoSetW).1

/-- Claim C9: for the Bitcoin-family branch, `fetchGasFees` never propagates
a fee-endpoint failure — when every attempt fails (timeout/malformed/
non-200) it returns the hardcoded per-network defaults, which differ
between mainnet (8/12/20) and testnet (1/2/5). -/
theorem fetchGasFees_btc_default_on_failure (net : NetworkType)
    (http : String → BtcFeeResult)
    (_hnet : net = .btc ∨ net = .btctestnet)
    (hfail : ∀ api ∈ btcFeeEndpoints net, btcFeeAttemptFailed (http api) = true) :
    fetchGasFeesBtcBranch net http = defaultFees net ∧
    defaultFees .btc = ⟨8, 12, 20⟩ ∧
    defaultFees .btctestnet = ⟨1, 2, 5⟩ ∧
    defaultFees NetworkType.btc ≠ defaultFees NetworkType.btctestnet := by
  have hgo : ∀ apis : List String,
      (∀ api ∈ apis, btcFeeAttemptFailed (http api) = true) →
      fetchBTCFeesGo net http apis = defaultFees net := by
    intro apis
    induction apis with
    | nil => intro _; rfl
    | cons api rest ih =>
      intro h
      have hh := h api (by simp)
      unfold fetchBTCFeesGo
      rcases hr : http api with msg | data
      · exact ih (fun a ha => h a (by simp [ha]))
      · cases data with
        | none => exact ih (fun a ha => h a (by simp [ha]))
        | some d => rw [hr] at hh; simp [btcFeeAttemptFailed] at hh
  refine ⟨hgo (btcFeeEndpoints net) hfail, rfl, rfl, ?_⟩
  simp only [defaultFees, FeeRates.mk.injEq, not_and]
  norm_num

/-- Witness for C9: mainnet with a timing-out fee endpoint falls back to
the 8/12/20 defaults. -/
theorem fetchGasFees_btc_default_on_failure_witness :
    fetchGasFeesBtcBranch .btc (fun _ => .failure "timeout of 10000ms exceeded") =
      defaultFees .btc ∧
    defaultFees NetworkType.btc = ⟨8, 12, 20⟩ := by
  have h := fetchGasFees_btc_default_on_failure .btc
    (fun _ => .failure "timeout of 10000ms exceeded") (Or.inl rfl)
    (fun api _ => rfl)
  exact ⟨h.1, h.2.1⟩

/-- Claim C7 counterexample: an accessor that is already initialized (empty
cache, `initialized = true`), on a second `initialize()` call during which
every endpoint probe fails, throws and resets `initialized` to `false` —
not a no-op success, so `initialize()` is not unconditionally idempotent. -/
theorem initializeNetwork_noop_counterexample :
    initializeNetwork (fun _ => .failure "Request failed with status code 503")
        ["https://mempool.space/api/address/{address}/utxo"] ⟨[], true⟩ =
      (.error "All endpoints failed initialization check", ⟨[], false⟩) := by
  rfl

/-- Claim C7 (amended): `initialize()` re-probes the endpoints
unconditionally.  On an already-initialized accessor it is a no-op success
exactly when some endpoint still probes 200; when every probe fails it
throws and resets the `initialized` flag to `false`. -/
theorem initializeNetwork_reprobe (probe : String → ProbeResult)
    (endpoints : List String) (s : BTCNetworkState)
    (hs : s.initialized = true) :
    (initializeProbe probe endpoints = true →
      initializeNetwork probe endpoints s = (.ok (), s)) ∧
    (initializeProbe probe endpoints = false →
      initializeNetwork probe endpoints s =
        (.error "All endpoints failed initialization check",
          { s with initialized := false })) := by
  constructor
  · intro h
    unfold initializeNetwork
    rw [h]
    simp only [if_true]
    cases s
    simp_all
  · intro h
    unfold initializeNetwork
    rw [h]
    simp

/-- Witness for C7 (amended): re-initializing an initialized accessor while
the endpoint still answers 200 is a no-op success. -/
theorem initializeNetwork_reprobe_witness :
    initializeNetwork (fun _ => .ok 200)
        ["https://mempool.space/api/address/{address}/utxo"] ⟨[], true⟩ =
      (.ok (), ⟨[], true⟩) := by
  exact (initializeNetwork_reprobe (fun _ => .ok 200)
    ["https://mempool.space/api/address/{address}/utxo"] ⟨[], true⟩ rfl).1 rfl


/-- Claim C5 counterexample: a 404 — a 400-class HTTP response — on the
first attempt does not raise a rejection: the loop continues (only status
exactly 400 raises immediately) and the broadcast succeeds on the second
attempt, so the claim's "any 400-class response is raised immediately
without trying further attempts" is false on the code. -/
theorem broadcastTransaction_400class_counterexample :
    broadcastEnv404 "https://mempool.space/api/tx" .textPlain =
      .rejected (some 404) (some "Not found") "Request failed with status code 404" ∧
    broadcastTransaction "02000000" .btc broadcastEnv404 = .ok "abc" := by
  exact ⟨rfl, rfl⟩

/-- Claim C5 (amended): a response with HTTP status exactly 400 from any
attempt raises the rejection error immediately — the result does not
depend on the remaining endpoint/encoding attempts; any other failure
continues to the next attempt (recording its message and body); and
exhausting all attempts raises the broadcast-exhausted error carrying the
last observed response body (falling back to the last error message).
In particular a 400 on the very first mainnet attempt settles the whole
`broadcastTransaction` call. -/
theorem broadcastTransaction_exact_400_policy
    (env : String → ContentType → BroadcastAttempt) :
    (∀ url ct rest lastE lastD data msg,
      env url ct = .rejected (some 400) data msg →
      broadcastGo env ((url, ct) :: rest) lastE lastD =
        .error (.invalidTransaction (data.getD "undefined"))) ∧
    (∀ url ct rest lastE lastD status data msg,
      env url ct = .rejected status data msg → status ≠ some 400 →
      broadcastGo env ((url, ct) :: rest) lastE lastD =
        broadcastGo env rest (some msg) data) ∧
    (∀ url ct rest lastE lastD status data,
      env url ct = .resolved status data → status ≠ 200 →
      broadcastGo env ((url, ct) :: rest) lastE lastD =
        broadcastGo env rest lastE lastD) ∧
    (∀ lastE lastD, broadcastGo env [] lastE lastD =
      .error (.exhausted (jsStrOr lastD (jsStrOr lastE "Unknown error")))) ∧
    (∀ txHex data msg,
      env "https://mempool.space/api/tx" .textPlain = .rejected (some 400) data msg →
      broadcastTransaction txHex .btc env =
        .error (.invalidTransaction (data.getD "undefined"))) := by
  have h400 : ∀ url ct rest lastE lastD data msg,
      env url ct = .rejected (some 400) data msg →
      broadcastGo env ((url, ct) :: rest) lastE lastD =
        .error (.invalidTransaction (data.getD "undefined")) := by
    intro url ct rest lastE lastD data msg h
    rw [broadcastGo, h]
    simp
  refine ⟨h400, ?_, ?_, fun _ _ => rfl, ?_⟩
  · intro url ct rest lastE lastD status data msg h hs
    rw [broadcastGo, h]
    simp [hs]
  · intro url ct rest lastE lastD status data h hs
    rw [broadcastGo, h]
    simp [hs]
  · intro txHex data msg h
    exact h400 "https://mempool.space/api/tx" .textPlain _ none none data msg h

/-- Witness for C5 (amended): a 400 with the node's rejection reason on the
first attempt raises `Invalid transaction` carrying that body. -/
theorem broadcastTransaction_exact_400_policy_witness :
    broadcastTransaction "02000000" .btc
        (fun _ _ => .rejected (some 400) (some "bad-txns-inputs-missingorspent") "400") =
      .error (.invalidTransaction "bad-txns-inputs-missingorspent") := by
  exact (broadcastTransaction_exact_400_policy
    (fun _ _ => .rejected (some 400) (some "bad-txns-inputs-missingorspent") "400")).2.2.2.2
    "02000000" (some "bad-txns-inputs-missingorspent") "400" rfl




/-- Claim C1 counterexample: with an empty UTXO set the input sum (0 satoshis)
is below the required rounded-amount-plus-fee (71,000 satoshis), yet
`CreatePsbt` raises the UTXO-validation error — not an insufficient-funds
error carrying the two totals — so the claim's unconditional "for every
transaction request and UTXO set" quantification fails on the code. -/
theorem createPsbt_insufficient_claim_counterexample :
    totalInputAmount tdEmpty < totalAmountToSend tdEmpty .medium none ∧
    CreatePsbt tdEmpty keyA .medium none = .error .invalidUtxos ∧
    isInsufficientFundsError (CreatePsbt tdEmpty keyA .medium none) = false := by
  refine ⟨?_, rfl, rfl⟩
  have hA : amountInSatoshis tdEmpty = 70000 := by
    norm_num [amountInSatoshis, tdEmpty, BTC_TO_SATOSHI, jsRound_eq_round, round_eq]
  unfold totalAmountToSend builderFee builderFeeRate
  rw [hA]
  norm_num [totalInputAmount, tdEmpty, estimateFee, networkConfig, bitcoinMainnet,
    estimatedTransactionSize, defaultGasFees, GasFees.get]

/-- Claim C1 (amended): for every transaction request whose UTXO set passes
the builder's validation (nonempty, all values positive), if the satoshi
input sum is below the rounded amount-in-satoshis plus the estimated fee,
`CreatePsbt` raises the insufficient-funds error carrying both the
required and the available totals, and never produces a built (signed)
transaction — the theorem holds for every signing key, because the check
precedes key decoding and input signing. -/
theorem createPsbt_insufficient_funds (td : TransactionDetails) (key : WifKey)
    (tier : FeeTier) (fees : Option GasFees)
    (hne : td.utxos ≠ [])
    (hpos : ∀ u ∈ td.utxos, 0 < u.value)
    (hlt : totalInputAmount td < totalAmountToSend td tier fees) :
    CreatePsbt td key tier fees =
      .error (.insufficientFunds (totalAmountToSend td tier fees) (totalInputAmount td)) ∧
    ∀ b, CreatePsbt td key tier fees ≠ .ok b := by
  have hval : ¬(td.utxos = [] ∨ td.utxos.any (fun u => u.value ≤ 0) = true) := by
    rintro (h | h)
    · exact hne h
    · obtain ⟨u, hu, hle⟩ := List.any_eq_true.mp h
      have := hpos u hu
      simp only [decide_eq_true_eq] at hle
      omega
  have hmain : CreatePsbt td key tier fees =
      .error (.insufficientFunds (totalAmountToSend td tier fees) (totalInputAmount td)) := by
    unfold CreatePsbt
    rw [if_neg hval, if_pos hlt]
  refine ⟨hmain, fun b hb => ?_⟩
  rw [hmain] at hb
  cases hb

/-- Witness for C1 (amended), E2E scenario B: inputs 80,000 sats, sending
79,500 sats at fee 1,000 — required 80,500 > available 80,000. -/
theorem createPsbt_insufficient_funds_witness :
    CreatePsbt tdB keyA .medium none = .error (.insufficientFunds 80500 80000) := by
  have hA : amountInSatoshis tdB = 79500 := by
    norm_num [amountInSatoshis, tdB, BTC_TO_SATOSHI, jsRound_eq_round, round_eq]
  have hreq : totalAmountToSend tdB .medium none = 80500 := by
    unfold totalAmountToSend builderFee builderFeeRate
    rw [hA]
    norm_num [estimateFee, tdB, networkConfig, bitcoinMainnet, estimatedTransactionSize,
      defaultGasFees, GasFees.get]
  have havail : totalInputAmount tdB = 80000 := by rfl
  have h := (createPsbt_insufficient_funds tdB keyA .medium none (by decide)
    (by decide) (by rw [hreq, havail]; norm_num)).1
  rw [hreq, havail] at h
  exact h

/-- Claim C2: on every successful build, with `leftover = totalInput -
(amountSatoshis + estimatedFee)`: the outputs are exactly the recipient
output followed by one change output equal to the leftover, paid to the
sender's own address, when the leftover strictly exceeds the dust
threshold (546 satoshis on both networks) — and no change output
otherwise, so the leftover is absorbed into the effective fee (the output
total refunds it nowhere). -/
theorem createPsbt_change_dust_policy (td : TransactionDetails) (key : WifKey)
    (tier : FeeTier) (fees : Option GasFees) (b : BuiltTx)
    (hok : CreatePsbt td key tier fees = .ok b) :
    b.outputs = ⟨td.recipient, amountInSatoshis td⟩ ::
        (if (networkConfig td.network).dustThreshold < changeAmount td tier fees
         then [⟨td.address, changeAmount td tier fees⟩]
         else []) ∧
    (networkConfig BtcNet.btc).dustThreshold = 546 ∧
    (networkConfig BtcNet.btctestnet).dustThreshold = 546 ∧
    (b.outputs.map (fun o => o.amount)).sum =
      amountInSatoshis td +
        (if (networkConfig td.network).dustThreshold < changeAmount td tier fees
         then changeAmount td tier fees
         else 0) := by
  unfold CreatePsbt at hok
  split at hok
  · cases hok
  · split at hok
    · cases hok
    · split at hok
      · cases hok
      · injection hok with hb
        subst hb
        refine ⟨rfl, rfl, rfl, ?_⟩
        by_cases hd : (networkConfig td.network).dustThreshold < changeAmount td tier fees <;>
          simp [psbtOutputs, hd]

/-- Witness for C2, E2E scenario A: inputs 80,000 sats, sending 70,000 at
fee 1,000 — leftover 9,000 > 546, so one change output of 9,000 sats to
the sender plus the recipient output of 70,000 sats. -/
theorem createPsbt_change_dust_policy_witness :
    CreatePsbt tdA keyA .medium none =
      .ok ⟨[⟨"bc1qrecipient", 70000⟩, ⟨"bc1qsender", 9000⟩], 2, 2, 1000⟩ ∧
    (⟨[⟨"bc1qrecipient", 70000⟩, ⟨"bc1qsender", 9000⟩], 2, 2, 1000⟩ : BuiltTx).outputs =
      [⟨"bc1qrecipient", 70000⟩, ⟨"bc1qsender", 9000⟩] := by
  have hA : amountInSatoshis tdA = 70000 := by
    norm_num [amountInSatoshis, tdA, BTC_TO_SATOSHI, jsRound_eq_round, round_eq]
  have hok : CreatePsbt tdA keyA .medium none =
      .ok ⟨[⟨"bc1qrecipient", 70000⟩, ⟨"bc1qsender", 9000⟩], 2, 2, 1000⟩ := by
    unfold CreatePsbt psbtOutputs changeAmount totalAmountToSend builderFee builderFeeRate
    rw [hA]
    rfl
  have h := (createPsbt_change_dust_policy tdA keyA .medium none
    ⟨[⟨"bc1qrecipient", 70000⟩, ⟨"bc1qsender", 9000⟩], 2, 2, 1000⟩ hok).1
  exact ⟨hok, by rfl⟩

/-- Helper: an endpoint whose attempt yields nothing is skipped without
touching the state. -/
theorem fetchBalanceGo_skip (isTestnet : Bool) (httpGet : String → UtxoFetchResult)
    (outspends : String → OutspendsResult) (address url : String)
    (rest : List String) (s : BTCNetworkState)
    (h : tryEndpoint isTestnet httpGet outspends address url = none) :
    fetchBalanceGo isTestnet httpGet outspends address (url :: rest) s =
      fetchBalanceGo isTestnet httpGet outspends address rest s := by
  rw [fetchBalanceGo, h]

/-- Helper: a whole prefix of nothing-yielding endpoints is skipped. -/
theorem fetchBalanceGo_skipMany (isTestnet : Bool)
    (httpGet : String → UtxoFetchResult) (outspends : String → OutspendsResult)
    (address : String) (pre rest : List String) (s : BTCNetworkState)
    (h : ∀ url ∈ pre, tryEndpoint isTestnet httpGet outspends address url = none) :
    fetchBalanceGo isTestnet httpGet outspends address (pre ++ rest) s =
      fetchBalanceGo isTestnet httpGet outspends address rest s := by
  induction pre with
  | nil => rfl
  | cons u pre ih =>
    rw [List.cons_append,
      fetchBalanceGo_skip isTestnet httpGet outspends address u (pre ++ rest) s
        (h u (by simp))]
    exact ih (fun x hx => h x (by simp [hx]))

/-- Helper: the first endpoint whose attempt yields a verified set settles
the call — the remaining endpoints are never consulted. -/
theorem fetchBalanceGo_hit (isTestnet : Bool) (httpGet : String → UtxoFetchResult)
    (outspends : String → OutspendsResult) (address url : String)
    (rest : List String) (s : BTCNetworkState) (v : List NetUTXO)
    (h : tryEndpoint isTestnet httpGet outspends address url = some v) :
    fetchBalanceGo isTestnet httpGet outspends address (url :: rest) s =
      (.ok (calculateBalance v), { s with utxos := v }) := by
  rw [fetchBalanceGo, h]

/-- Claim C6: on an initialized accessor, `fetchBalance` tries the endpoints
in their fixed order; endpoints that fail or yield no verified UTXOs are
skipped with the whole state (in particular the UTXO cache) untouched;
when the first M endpoints yield nothing and endpoint M+1 yields a
verified set, the result — returned balance and cached set — equals that
of calling endpoint M+1 alone; and when every endpoint is exhausted the
call throws the no-spendable-UTXOs error naming the address, with the
state returned unchanged (so an initially empty cache stays empty). -/
theorem fetchBalance_endpoint_fallback (isTestnet : Bool)
    (httpGet : String → UtxoFetchResult) (outspends : String → OutspendsResult)
    (address : String) :
    (∀ pre rest s, s.initialized = true →
      (∀ url ∈ pre, tryEndpoint isTestnet httpGet outspends address url = none) →
      fetchBalance isTestnet (pre ++ rest) httpGet outspends address s =
        fetchBalance isTestnet rest httpGet outspends address s) ∧
    (∀ endpoints s, s.initialized = true →
      (∀ url ∈ endpoints, tryEndpoint isTestnet httpGet outspends address url = none) →
      fetchBalance isTestnet endpoints httpGet outspends address s =
        (.error (.noSpendableUtxos address), s)) ∧
    (∀ pre url rest s v, s.initialized = true →
      (∀ u ∈ pre, tryEndpoint isTestnet httpGet outspends address u = none) →
      tryEndpoint isTestnet httpGet outspends address url = some v →
      fetchBalance isTestnet (pre ++ url :: rest) httpGet outspends address s =
        fetchBalance isTestnet [url] httpGet outspends address s ∧
      fetchBalance isTestnet (pre ++ url :: rest) httpGet outspends address s =
        (.ok (calculateBalance v), { s with utxos := v })) := by
  refine ⟨?_, ?_, ?_⟩
  · intro pre rest s hs h
    unfold fetchBalance
    rw [if_pos hs, if_pos hs]
    exact fetchBalanceGo_skipMany isTestnet httpGet outspends address pre rest s h
  · intro endpoints s hs h
    unfold fetchBalance
    rw [if_pos hs]
    have he : fetchBalanceGo isTestnet httpGet outspends address (endpoints ++ []) s =
        fetchBalanceGo isTestnet httpGet outspends address [] s :=
      fetchBalanceGo_skipMany isTestnet httpGet outspends address endpoints [] s h
    rw [List.append_nil] at he
    rw [he]
    rfl
  · intro pre url rest s v hs hpre hhit
    have hfull : fetchBalance isTestnet (pre ++ url :: rest) httpGet outspends address s =
        (.ok (calculateBalance v), { s with utxos := v }) := by
      unfold fetchBalance
      rw [if_pos hs,
        fetchBalanceGo_skipMany isTestnet httpGet outspends address pre (url :: rest) s hpre,
        fetchBalanceGo_hit isTestnet httpGet outspends address url rest s v hhit]
    have hone : fetchBalance isTestnet [url] httpGet outspends address s =
        (.ok (calculateBalance v), { s with utxos := v }) := by
      unfold fetchBalance
      rw [if_pos hs, fetchBalanceGo_hit isTestnet httpGet outspends address url [] s v hhit]
    exact ⟨hfull.trans hone.symm, hfull⟩


/-- Witness for C6: with the first endpoint answering 500 and the second
yielding the verified fixture set, the call equals calling the second
endpoint alone. -/
theorem fetchBalance_endpoint_fallback_witness :
    fetchBalance false ["https://bad.example/{address}", "https://good.example/{address}"]
        httpGetFlaky outspendsAllUnspent "alice" ⟨[], true⟩ =
      fetchBalance false ["https://good.example/{address}"]
        httpGetFlaky outspendsAllUnspent "alice" ⟨[], true⟩ := by
  exact ((fetchBalance_endpoint_fallback false httpGetFlaky outspendsAllUnspent "alice").2.2
    ["https://bad.example/{address}"] "https://good.example/{address}" [] ⟨[], true⟩
    utxoSetW rfl (by intro u hu; simp at hu; subst hu; rfl) rfl).1

/-- Claim C4 counterexample: a successful `fetchBalance` returns
`calculateBalance`, the plain satoshi sum (here 80,000), not the
major-unit (BTC) conversion of the spec's words (0.0008 BTC = 1/1250):
the code performs no satoshi-to-BTC division. -/
theorem fetchBalance_major_unit_counterexample :
    fetchBalance false ["https://good.example/{address}"] (fun _ => .ok 200 (some utxoSetW))
        outspendsAllUnspent "alice" ⟨[], true⟩ =
      (.ok 80000, ⟨utxoSetW, true⟩) ∧
    calculateBalanceMajorUnitsSpec utxoSetW = 1/1250 ∧
    ((80000 : ℚ) ≠ 1/1250) := by
  refine ⟨rfl, ?_, by norm_num⟩
  norm_num [calculateBalanceMajorUnitsSpec, utxoSetW]

/-- Claim C4 (amended): a successful `fetchBalance` returns the sum of the
verified spendable UTXO values in satoshis — the chain's minor unit, with
no conversion to BTC (callers convert for display) — and caches exactly
that verified set, which is the outspend-verified filter of a 200 array
response. -/
theorem fetchBalance_satoshi_sum (isTestnet : Bool)
    (httpGet : String → UtxoFetchResult) (outspends : String → OutspendsResult)
    (address url : String) (rest : List String) (s : BTCNetworkState)
    (v : List NetUTXO)
    (hinit : s.initialized = true)
    (hv : tryEndpoint isTestnet httpGet outspends address url = some v) :
    fetchBalance isTestnet (url :: rest) httpGet outspends address s =
      (.ok (calculateBalance v), { s with utxos := v }) ∧
    calculateBalance v = (v.map (fun u => u.value)).sum ∧
    ∃ arr, httpGet (jsReplaceFirst url "{address}" address) = .ok 200 (some arr) ∧
      v = verifySpendableUtxos isTestnet outspends (arr.filter confirmedUtxoFilter) := by
  refine ⟨?_, rfl, ?_⟩
  · unfold fetchBalance
    rw [if_pos hinit]
    exact fetchBalanceGo_hit isTestnet httpGet outspends address url rest s v hv
  · unfold tryEndpoint at hv
    split at hv
    · cases hv
    · rename_i status data heq
      split at hv
      · cases hv
      · rename_i arr
        split at hv
        · rename_i hst
          subst hst
          split at hv
          · cases hv
          · split at hv
            · cases hv
            · exact ⟨arr, heq, (Option.some.inj hv).symm⟩
        · cases hv

/-- Witness for C4 (amended): the fixture run returns 80,000 — satoshis,
not BTC — and caches the verified set. -/
theorem fetchBalance_satoshi_sum_witness :
    fetchBalance false ["https://good.example/{address}"] (fun _ => .ok 200 (some utxoSetW))
        outspendsAllUnspent "alice" ⟨[], true⟩ =
      (.ok 80000, ⟨utxoSetW, true⟩) := by
  exact (fetchBalance_satoshi_sum false (fun _ => .ok 200 (some utxoSetW))
    outspendsAllUnspent "alice" "https://good.example/{address}" [] ⟨[], true⟩
    utxoSetW rfl rfl).1

end WalletPlugin
